import Mathlib

/-!
# Verification of the ilminate-mcp core

A shallow embedding of the Threat Feed Subscription Manager
(`src/services/threat-feed-manager.ts`), the resilient tool handlers
(`src/tools/analyze-email-threat.ts`, the domain-reputation tool,
`src/tools/subscribe-to-threat-feed.ts`, `src/tools/get-threat-feed-status.ts`)
and their fallback heuristic scorers, together with proofs about them.

JavaScript semantics notes, applied uniformly:
* `x || d` treats `0`, `""`, `null`/`undefined` as falsy; we model absent
  values with `Option` and zero/empty falsiness explicitly (`jsOrQ`,
  `jsOrStr`, `jsOrInt`).
* JS `Map.set` replaces an existing key in place and appends new keys;
  `Map.delete` on a missing key is a no-op.
* Numbers are modelled by `ℚ`; every literal appearing in the source (0.2,
  0.3, 0.5, 0.6, ...) and every sum/threshold comparison performed by the
  heuristics is exact in binary floating point as far as the branch
  decisions go, so the rational model takes the same branches as the
  JS code.
* Timestamps (`Date`) are modelled as integer milliseconds.
-/

namespace Ilminate

/-- JS `x || d` for numbers: `0` is falsy, so both a missing value and an
explicit `0` fall back to the default. -/
def jsOrQ (v : Option ℚ) (d : ℚ) : ℚ :=
  match v with
  | none => d
  | some x => if x = 0 then d else x

/-- JS `x || d` for strings: the empty string is falsy. -/
def jsOrStr (v : Option String) (d : String) : String :=
  match v with
  | none => d
  | some s => if s = "" then d else s

/-- JS `x || d` for integer timestamps: `0` is falsy. -/
def jsOrInt (v : Option Int) (d : Int) : Int :=
  match v with
  | none => d
  | some x => if x = 0 then d else x

/-- JS `x || d` for non-negative integers (e.g. minute counts): `0` is falsy. -/
def jsOrNat (v : Option Nat) (d : Nat) : Nat :=
  match v with
  | none => d
  | some x => if x = 0 then d else x

/-- Does `needle` occur at the start of `hay` (on character lists)? -/
def listPre : List Char → List Char → Bool
  | [], _ => true
  | _ :: _, [] => false
  | a :: as, b :: bs => a == b && listPre as bs

/-- Does `needle` occur anywhere in `hay` (JS `String.prototype.includes`)? -/
def listSub (needle : List Char) : List Char → Bool
  | [] => listPre needle []
  | b :: bs => listPre needle (b :: bs) || listSub needle bs

/-- JS `hay.includes(needle)`. -/
def strIncludes (hay needle : String) : Bool :=
  listSub needle.toList hay.toList

/-- JS `hay.startsWith(needle)`. -/
def strStarts (hay needle : String) : Bool :=
  listPre needle.toList hay.toList

/-- JS `hay.endsWith(needle)`. -/
def strEnds (hay needle : String) : Bool :=
  listPre needle.toList.reverse hay.toList.reverse

/-- ASCII lowercasing, the effect of `toLowerCase()` on the ASCII inputs the
heuristics compare against. -/
def strLower (s : String) : String :=
  String.mk (s.toList.map Char.toLower)

/-- JS `s.split(sep)` for a one-character separator, on character lists:
`split` never returns an empty list (`"".split(x) = [""]`). -/
def listSplit (sep : Char) : List Char → List (List Char)
  | [] => [[]]
  | c :: cs =>
    match listSplit sep cs with
    | [] => if c = sep then [[], []] else [[c]]
    | r :: rs => if c = sep then [] :: r :: rs else (c :: r) :: rs

/-- JS `s.split(sep)` for a one-character separator. -/
def strSplit (sep : Char) (s : String) : List String :=
  (listSplit sep s.toList).map String.mk

end Ilminate

namespace Ilminate

/-! ## analyze-email-threat.ts -/

/-- Input of the `analyze_email_threat` tool. -/
structure AnalyzeEmailThreatInput where
  subject : String
  sender : String
  body : String
  attachments : Option (List String)
deriving Repr, DecidableEq

/-- The nested verdict object a backend response may carry
(`result.verdict` in `analyze-email-threat.ts`); every field can be absent. -/
structure ApexVerdict where
  risk_score : Option ℚ
  threat_categories : Option (List String)
  indicators : Option (List String)
  action : Option String
  threat_level : Option String
  confidence : Option ℚ
deriving Repr, DecidableEq

/-- A response from `callIlminateAPI('/api/analyze-email', ...)`. -/
structure ApexResult where
  success : Bool
  verdict : Option ApexVerdict
deriving Repr, DecidableEq

/-- Output of the `analyze_email_threat` tool. -/
structure AnalyzeEmailThreatOutput where
  threat_score : ℚ
  threat_type : String
  indicators : List String
  recommendation : String
  confidence : ℚ
deriving Repr, DecidableEq

/-- The urgent-language check of `performBasicHeuristicAnalysis`:
`urgentKeywords.some(k => input.body.toLowerCase().includes(k))`. -/
def hasUrgentLanguage (input : AnalyzeEmailThreatInput) : Bool :=
  ["urgent", "immediately", "asap", "action required"].any
    (fun keyword => strIncludes (strLower input.body) keyword)

/-- The suspicious-sender check of `performBasicHeuristicAnalysis`:
`input.sender.split('@')[1]?.toLowerCase()` must exist, be non-empty
(JS truthiness) and contain `'suspicious'`. -/
def hasSuspiciousSender (input : AnalyzeEmailThreatInput) : Bool :=
  match ((strSplit '@' input.sender)[1]?).map strLower with
  | none => false
  | some d => d != "" && strIncludes d "suspicious"

/-- The financial-request check of `performBasicHeuristicAnalysis`. -/
def hasFinancialRequest (input : AnalyzeEmailThreatInput) : Bool :=
  ["wire transfer", "payment", "invoice", "refund"].any
    (fun keyword => strIncludes (strLower input.body) keyword)

/-- `performBasicHeuristicAnalysis` from `analyze-email-threat.ts`:
the pure fallback scorer (its three keyword checks are the named
definitions above). -/
def performBasicHeuristicAnalysis
    (input : AnalyzeEmailThreatInput) : AnalyzeEmailThreatOutput :=
  let hasUrgentLanguage := hasUrgentLanguage input
  let hasSuspiciousSender := hasSuspiciousSender input
  let hasFinancialRequest := hasFinancialRequest input
  let indicators :=
    (if hasUrgentLanguage then ["urgent_language"] else []) ++
    (if hasSuspiciousSender then ["suspicious_sender"] else []) ++
    (if hasFinancialRequest then ["financial_request"] else [])
  let threatScore : ℚ :=
    (if hasUrgentLanguage then 0.2 else 0) +
    (if hasSuspiciousSender then 0.3 else 0) +
    (if hasFinancialRequest then 0.3 else 0)
  let threatType : String :=
    if threatScore > 0.7 then
      if hasFinancialRequest then "BEC" else "Phishing"
    else if threatScore > 0.4 then "Phishing"
    else "Safe"
  let recommendation : String :=
    if threatScore > 0.7 then "quarantine"
    else if threatScore > 0.4 then "review"
    else "allow"
  { threat_score := min threatScore 1.0
    threat_type := threatType
    indicators := indicators
    recommendation := recommendation
    confidence := 0.6 }

/-- The success-path transformation of `analyzeEmailThreat`: reshaping the
backend verdict into the MCP tool output. -/
def transformApexVerdict (verdict : ApexVerdict) : AnalyzeEmailThreatOutput :=
  { threat_score := jsOrQ verdict.risk_score 0 / 100
    threat_type := jsOrStr (verdict.threat_categories.bind List.head?) "Safe"
    indicators := verdict.indicators.getD []
    recommendation :=
      if verdict.action == some "quarantine" then "quarantine"
      else if verdict.action == some "block" then "quarantine"
      else if verdict.threat_level == some "HIGH"
           || verdict.threat_level == some "CRITICAL" then "review"
      else "allow"
    confidence := jsOrQ verdict.confidence 0.5 }

/-- `analyzeEmailThreat`: the HTTP call's outcome is a parameter — `none`
models a thrown transport error. A response with `success` false or no
`verdict` raises inside the `try`, which the `catch` turns into the
fallback, exactly as a transport error is. -/
def analyzeEmailThreat (input : AnalyzeEmailThreatInput)
    (backend : Option ApexResult) : AnalyzeEmailThreatOutput :=
  match backend with
  | none => performBasicHeuristicAnalysis input
  | some result =>
    if !result.success then performBasicHeuristicAnalysis input
    else
      match result.verdict with
      | none => performBasicHeuristicAnalysis input
      | some verdict => transformApexVerdict verdict

end Ilminate

namespace Ilminate

/-! ## check-domain-reputation tool -/

/-- Input of the `check_domain_reputation` tool. -/
structure CheckDomainReputationInput where
  domain : String
deriving Repr, DecidableEq

/-- A response from `callIlminateAPI('/api/domain/reputation', ...)`;
the nested `whois_data` / `dns_records` shapes are opaque pass-through
payloads here. -/
structure DomainBackendResult where
  reputation_score : Option ℚ
  is_malicious : Option Bool
  threat_types : Option (List String)
  first_seen : Option String
  last_seen : Option String
  whois_data : Option String
  dns_records : Option String
deriving Repr, DecidableEq

/-- Output of the `check_domain_reputation` tool. -/
structure CheckDomainReputationOutput where
  reputation_score : ℚ
  is_malicious : Bool
  threat_types : List String
  first_seen : Option String
  last_seen : Option String
  whois_data : Option String
  dns_records : Option String
deriving Repr, DecidableEq

/-- The regex `/^[0-9]+\./`: one or more leading digits followed by a dot. -/
def digitsThenDot : List Char → Bool
  | [] => false
  | c :: cs => c.isDigit && digitsThenDotAfter cs
where
  /-- After the first digit: keep consuming digits; the first non-digit
  must be `'.'` (the regex backtracks to nothing else, since the digit run
  is maximal). -/
  digitsThenDotAfter : List Char → Bool
  | [] => false
  | c :: cs => if c.isDigit then digitsThenDotAfter cs else c == '.'

/-- The suspicious-pattern check of `performBasicDomainAnalysis`: the
`suspiciousPatterns.some(p => p.test(domain))` test over the three regexes
(leading digits then a dot; a leading `"xn--"`; containing `"bit.ly"`,
`"tinyurl"` or `"goo.gl"`), on the already-lowercased domain. -/
def hasSuspiciousPattern (domain : String) : Bool :=
  digitsThenDot domain.toList ||
  strStarts domain "xn--" ||
  (strIncludes domain "bit.ly" || strIncludes domain "tinyurl"
    || strIncludes domain "goo.gl")

/-- The suspicious-TLD check of `performBasicDomainAnalysis`:
`['.tk','.ml','.ga','.cf'].some(tld => domain.endsWith(tld))`. -/
def hasSuspiciousTLD (domain : String) : Bool :=
  [".tk", ".ml", ".ga", ".cf"].any (fun tld => strEnds domain tld)

/-- `performBasicDomainAnalysis` from the `check_domain_reputation` tool:
the pure fallback scorer. -/
def performBasicDomainAnalysis
    (input : CheckDomainReputationInput) : CheckDomainReputationOutput :=
  let domain := strLower input.domain
  let suspPattern := hasSuspiciousPattern domain
  let suspTLD := hasSuspiciousTLD domain
  let threatTypes :=
    (if suspPattern then ["suspicious_pattern"] else []) ++
    (if suspTLD then ["suspicious_tld"] else [])
  -- reputationScore starts at 0.5, is set to 0.3 on a suspicious pattern,
  -- then clamped with min(·, 0.4) on a suspicious TLD
  let score1 : ℚ := if suspPattern then 0.3 else 0.5
  let reputationScore : ℚ := if suspTLD then min score1 0.4 else score1
  { reputation_score := reputationScore
    is_malicious := decide (reputationScore < 0.4)
    threat_types := threatTypes
    first_seen := none
    last_seen := none
    whois_data := none
    dns_records := none }

/-- `checkDomainReputation`: the backend call's outcome is a parameter —
`none` models a thrown transport error (e.g. an unreachable backend URL),
which the `catch` turns into the fallback analysis. -/
def checkDomainReputation (input : CheckDomainReputationInput)
    (backend : Option DomainBackendResult) : CheckDomainReputationOutput :=
  match backend with
  | none => performBasicDomainAnalysis input
  | some result =>
    { reputation_score := jsOrQ result.reputation_score 0.5
      is_malicious := result.is_malicious.getD false
      threat_types := result.threat_types.getD []
      first_seen := result.first_seen
      last_seen := result.last_seen
      whois_data := result.whois_data
      dns_records := result.dns_records }

end Ilminate

namespace Ilminate

/-! ## threat-feed-manager.ts

State is made explicit: `ManagerState` holds the `subscriptions` registry
(a JS `Map`, modelled as an association list with `Map.set` semantics),
the `updateCallbacks` map (only the presence of a callback matters here,
so it is a list of feed names) and the recurring `setInterval` timers
registered by `startPolling` (which the source never clears). `Date.now()`
values are passed in as explicit `now : Int` millisecond timestamps, and
the outcome of each external call (MCP connect, `client.callTool`) is a
parameter. -/

/-- `ThreatFeed['type']`. -/
inductive FeedType
  | ioc | yara | domain | ip | url | signature
deriving Repr, DecidableEq

/-- `ThreatFeed` from `threat-feed-manager.ts`. -/
structure ThreatFeed where
  name : String
  type : FeedType
  mcp_server_url : Option String
  mcp_server_command : Option String
  mcp_server_args : Option (List String)
  enabled : Bool
  last_update : Option Int
  update_interval_minutes : Nat
deriving Repr, DecidableEq

/-- `ThreatFeedSubscription`: `client` reduces to whether a connected
`MCPClient` is held; the callback is tracked by presence. -/
structure Subscription where
  feed : ThreatFeed
  hasClient : Bool
  hasCallback : Bool
  last_check : Option Int
deriving Repr, DecidableEq

/-- One raw entry of `result.updates` returned by `client.callTool`. -/
structure RawUpdate where
  type : Option String
  timestamp : Option Int
deriving Repr, DecidableEq

/-- The result object of a successful `client.callTool` call
(`result.updates` may be absent). -/
structure CallResult where
  updates : Option (List RawUpdate)
deriving Repr, DecidableEq

/-- `ThreatFeedUpdate` from `threat-feed-manager.ts` (`update_type` is kept
as the raw string the source coerces). -/
structure ThreatFeedUpdate where
  feed_name : String
  update_type : String
  data : RawUpdate
  timestamp : Int
deriving Repr, DecidableEq

/-- The request `queryMCPFeed` sends through `client.callTool`. -/
structure FeedQuery where
  toolName : String
  feed_name : String
  since : Int
deriving Repr, DecidableEq

/-- The environment's response to a `callTool` request: `none` models a
thrown transport error. -/
def CallOutcome := FeedQuery → Option CallResult

/-- `Map.set` on an association list: replace the existing entry in place,
append a new key at the end (JS `Map` insertion-order semantics). -/
def setEntry {α : Type} : List (String × α) → String → α → List (String × α)
  | [], k, v => [(k, v)]
  | (k', v') :: rest, k, v =>
    if k' = k then (k, v) :: rest else (k', v') :: setEntry rest k v

/-- `Map.get` on an association list. -/
def lookupEntry {α : Type} : List (String × α) → String → Option α
  | [], _ => none
  | (k', v') :: rest, k => if k' = k then some v' else lookupEntry rest k

/-- `Map.delete` on an association list. -/
def eraseEntry {α : Type} : List (String × α) → String → List (String × α)
  | [], _ => []
  | (k', v') :: rest, k =>
    if k' = k then eraseEntry rest k else (k', v') :: eraseEntry rest k

/-- How many entries carry key `k` (1 for a key of a well-formed map). -/
def countKeys {α : Type} : List (String × α) → String → Nat
  | [], _ => 0
  | (k', _) :: rest, k => (if k' = k then 1 else 0) + countKeys rest k

/-- The mutable state of the singleton `ThreatFeedManager`, plus the
interval timers `startPolling` registers (feed name, interval in ms). -/
structure ManagerState where
  subscriptions : List (String × Subscription)
  updateCallbacks : List String
  timers : List (String × Nat)
deriving Repr, DecidableEq

/-- The manager before any subscribe call. -/
def emptyManager : ManagerState :=
  { subscriptions := [], updateCallbacks := [], timers := [] }

/-- `getToolNameForFeedType` from `threat-feed-manager.ts`. -/
def getToolNameForFeedType (type : FeedType) : String :=
  match type with
  | .ioc => "get_ioc_updates"
  | .yara => "get_yara_rule_updates"
  | .domain => "get_domain_updates"
  | .ip => "get_ip_updates"
  | .url => "get_url_updates"
  | .signature => "get_signature_updates"

/-- The `since` argument `queryMCPFeed` passes:
`subscription.last_check?.toISOString() || new Date(Date.now() - 24*60*60*1000)`. -/
def sinceParam (sub : Subscription) (now : Int) : Int :=
  match sub.last_check with
  | some t => t
  | none => now - 24 * 60 * 60 * 1000

/-- The `callTool` request a poll for `sub` at time `now` issues. -/
def feedQueryOf (sub : Subscription) (now : Int) : FeedQuery :=
  { toolName := getToolNameForFeedType sub.feed.type
    feed_name := sub.feed.name
    since := sinceParam sub now }

/-- `queryMCPFeed` from `threat-feed-manager.ts`: without a client it
returns `[]`; a transport error (`respond _ = none`) is caught, logged and
also yields `[]`; otherwise `result.updates` is normalized. -/
def queryMCPFeed (sub : Subscription) (respond : CallOutcome)
    (now : Int) : List ThreatFeedUpdate :=
  if !sub.hasClient then []
  else
    match respond (feedQueryOf sub now) with
    | none => []
    | some result =>
      match result.updates with
      | none => []
      | some raws =>
        raws.map (fun u =>
          { feed_name := sub.feed.name
            update_type := jsOrStr u.type "new_ioc"
            data := u
            timestamp := jsOrInt u.timestamp now })

/-- `checkForUpdates` from `threat-feed-manager.ts`. The per-update
handling (`handleUpdate`: the registered callback, then
`updateDetectionEngines`) catches every error internally and touches no
manager state, so its effect here is the list of dispatched updates; the
function returns it alongside the new state. After the batch, the cycle
sets `last_check` and `feed.last_update` to now — `queryMCPFeed` never
throws, so the surrounding `catch` is not reachable through the
transport-error path. -/
def checkForUpdates (st : ManagerState) (feedName : String)
    (respond : CallOutcome) (now : Int) :
    ManagerState × List ThreatFeedUpdate :=
  match lookupEntry st.subscriptions feedName with
  | none => (st, [])
  | some sub =>
    if !sub.feed.enabled then (st, [])
    else
      let dispatched :=
        if sub.hasClient then queryMCPFeed sub respond now else []
      let sub' :=
        { sub with
            last_check := some now
            feed := { sub.feed with last_update := some now } }
      ({ st with subscriptions := setEntry st.subscriptions feedName sub' },
        dispatched)

/-- `startPolling` from `threat-feed-manager.ts`: runs one immediate
check, then registers a recurring `setInterval` timer of
`update_interval_minutes * 60 * 1000` ms. No existing timer is ever
cleared. -/
def startPolling (st : ManagerState) (feedName : String)
    (respond : CallOutcome) (now : Int) :
    ManagerState × List ThreatFeedUpdate :=
  match lookupEntry st.subscriptions feedName with
  | none => (st, [])
  | some sub =>
    let intervalMs := sub.feed.update_interval_minutes * 60 * 1000
    let (st1, dispatched) := checkForUpdates st feedName respond now
    ({ st1 with timers := st1.timers ++ [(feedName, intervalMs)] },
      dispatched)

/-- Errors `subscribe` can throw. -/
inductive SubscribeError
  | connectionError
deriving Repr, DecidableEq

/-- `subscribe` from `threat-feed-manager.ts`. `connectOk` is the outcome
of `new MCPClient(...)` / `client.connect()` when a command is configured;
on failure the error is rethrown before any state is touched. On success
a subscription with `last_check = now` is recorded (replacing any entry
with the same name), the callback is registered, and `startPolling` runs
the immediate first poll and registers the recurring timer. -/
def subscribe (st : ManagerState) (feed : ThreatFeed) (hasCallback : Bool)
    (connectOk : Bool) (respond : CallOutcome) (now : Int) :
    Except SubscribeError Unit × ManagerState :=
  if feed.mcp_server_command.isSome && !connectOk then
    (.error .connectionError, st)
  else
    let sub : Subscription :=
      { feed := feed
        hasClient := feed.mcp_server_command.isSome
        hasCallback := hasCallback
        last_check := some now }
    let st1 : ManagerState :=
      { st with
          subscriptions := setEntry st.subscriptions feed.name sub
          updateCallbacks :=
            if hasCallback then
              if st.updateCallbacks.contains feed.name then
                st.updateCallbacks
              else st.updateCallbacks ++ [feed.name]
            else st.updateCallbacks }
    (.ok (), (startPolling st1 feed.name respond now).1)

/-- `unsubscribe` from `threat-feed-manager.ts`: disconnects the owned
client (an external effect), deletes the registry and callback entries.
It never throws; no timer is cleared. -/
def unsubscribe (st : ManagerState) (feedName : String) : ManagerState :=
  { st with
      subscriptions := eraseEntry st.subscriptions feedName
      updateCallbacks := st.updateCallbacks.filter (fun n => n ≠ feedName) }

/-- `getSubscriptions`: the registry values in insertion order. -/
def getSubscriptions (st : ManagerState) : List Subscription :=
  st.subscriptions.map (fun p => p.2)

/-- The recurring `setInterval` periods (in ms) currently firing
`checkForUpdates` for a given feed name — the feed's effective polling
schedule. -/
def timersFor (st : ManagerState) (name : String) : List Nat :=
  (st.timers.filter (fun p => p.1 == name)).map (fun p => p.2)

/-! ## get-threat-feed-status.ts -/

/-- One entry of the `get_threat_feed_status` output. -/
structure ThreatFeedStatus where
  feed_name : String
  feed_type : FeedType
  enabled : Bool
  last_update : Option Int
  next_check : Option Int
  update_interval_minutes : Nat
  status : String
deriving Repr, DecidableEq

/-- Output of the `get_threat_feed_status` tool. -/
structure GetThreatFeedStatusOutput where
  feeds : List ThreatFeedStatus
  total_feeds : Nat
  active_feeds : Nat
deriving Repr, DecidableEq

/-- The status entry built for one subscription inside the loop of
`getThreatFeedStatus`. -/
def statusEntryOf (sub : Subscription) : ThreatFeedStatus :=
  { feed_name := sub.feed.name
    feed_type := sub.feed.type
    enabled := sub.feed.enabled
    last_update := sub.feed.last_update
    next_check :=
      sub.last_check.map
        (fun t => t + (sub.feed.update_interval_minutes * 60 * 1000 : Nat))
    update_interval_minutes := sub.feed.update_interval_minutes
    status := if sub.feed.enabled then "active" else "inactive" }

/-- The loop filter: `if (input?.feed_name && subscription.feed.name !==
input.feed_name) continue;` — an absent or empty (falsy) `feed_name`
filters nothing. -/
def keepsFeed (filter : Option String) (name : String) : Bool :=
  match filter with
  | none => true
  | some f => !(f != "" && name != f)

/-- `getThreatFeedStatus` from `get-threat-feed-status.ts`. Nothing in the
`try` block can throw, so the catch-all zero result is unreachable and the
handler always resolves to this value. -/
def getThreatFeedStatus (st : ManagerState) (filter : Option String) :
    GetThreatFeedStatusOutput :=
  let feeds :=
    (getSubscriptions st).filterMap (fun sub =>
      if keepsFeed filter sub.feed.name then some (statusEntryOf sub)
      else none)
  { feeds := feeds
    total_feeds := feeds.length
    active_feeds := (feeds.filter (fun f => f.status == "active")).length }

/-! ## subscribe-to-threat-feed.ts -/

/-- Input of the `subscribe_to_threat_feed` tool. -/
structure SubscribeToThreatFeedInput where
  feed_name : String
  feed_type : FeedType
  mcp_server_url : Option String
  mcp_server_command : Option String
  mcp_server_args : Option (List String)
  update_interval_minutes : Option Nat
  enabled : Option Bool
deriving Repr, DecidableEq

/-- Output of the `subscribe_to_threat_feed` tool. -/
structure SubscribeToThreatFeedOutput where
  success : Bool
  feed_name : String
  subscription_id : String
  message : String
deriving Repr, DecidableEq

/-- The `ThreatFeed` record `subscribeToThreatFeed` builds from its input:
`enabled: input.enabled !== false`,
`update_interval_minutes: input.update_interval_minutes || 60`. -/
def feedOfInput (input : SubscribeToThreatFeedInput) : ThreatFeed :=
  { name := input.feed_name
    type := input.feed_type
    mcp_server_url := input.mcp_server_url
    mcp_server_command := input.mcp_server_command
    mcp_server_args := input.mcp_server_args
    enabled := input.enabled != some false
    last_update := none
    update_interval_minutes := jsOrNat input.update_interval_minutes 60 }

/-- `subscribeToThreatFeed` from `subscribe-to-threat-feed.ts`: calls
`threatFeedManager.subscribe` with a logging callback; the `catch` maps a
thrown error to a `success: false` result with an empty
`subscription_id`, so the handler always resolves. -/
def subscribeToThreatFeed (st : ManagerState)
    (input : SubscribeToThreatFeedInput) (connectOk : Bool)
    (respond : CallOutcome) (now : Int) :
    SubscribeToThreatFeedOutput × ManagerState :=
  let feed := feedOfInput input
  match subscribe st feed true connectOk respond now with
  | (.ok _, st') =>
    ({ success := true
       feed_name := feed.name
       subscription_id := feed.name
       message := "Successfully subscribed to threat feed: " ++ feed.name },
      st')
  | (.error _, st') =>
    ({ success := false
       feed_name := input.feed_name
       subscription_id := ""
       message := "Failed to subscribe" },
      st')

end Ilminate

namespace Ilminate

/-! ## Association-list (JS `Map`) lemmas -/

theorem lookupEntry_setEntry_self {α : Type} (l : List (String × α))
    (k : String) (v : α) : lookupEntry (setEntry l k v) k = some v := by
  induction l with
  | nil => simp [setEntry, lookupEntry]
  | cons p rest ih =>
    obtain ⟨k', v'⟩ := p
    by_cases hk : k' = k
    · simp [setEntry, lookupEntry, hk]
    · simp [setEntry, lookupEntry, hk, ih]

theorem countKeys_setEntry_self {α : Type} (l : List (String × α))
    (k : String) (v : α) :
    countKeys (setEntry l k v) k = max 1 (countKeys l k) := by
  induction l with
  | nil => simp [setEntry, countKeys]
  | cons p rest ih =>
    obtain ⟨k', v'⟩ := p
    by_cases hk : k' = k
    · simp [setEntry, countKeys, hk]
    · simp [setEntry, countKeys, hk, ih]

theorem eraseEntry_of_lookup_none {α : Type} (l : List (String × α))
    (k : String) (h : lookupEntry l k = none) : eraseEntry l k = l := by
  induction l with
  | nil => rfl
  | cons p rest ih =>
    obtain ⟨k', v'⟩ := p
    by_cases hk : k' = k
    · simp [lookupEntry, hk] at h
    · simp only [lookupEntry, hk, if_false, if_neg hk] at h ⊢
      simp [eraseEntry, hk, ih h]

/-! ## Manager-operation lemmas -/

/-- `checkForUpdates` never touches the timer list. -/
theorem checkForUpdates_timers (st : ManagerState) (fn : String)
    (r : CallOutcome) (now : Int) :
    (checkForUpdates st fn r now).1.timers = st.timers := by
  unfold checkForUpdates
  cases lookupEntry st.subscriptions fn with
  | none => rfl
  | some sub => by_cases he : sub.feed.enabled <;> simp [he]

/-- `checkForUpdates` never touches the callback registry. -/
theorem checkForUpdates_updateCallbacks (st : ManagerState) (fn : String)
    (r : CallOutcome) (now : Int) :
    (checkForUpdates st fn r now).1.updateCallbacks = st.updateCallbacks := by
  unfold checkForUpdates
  cases lookupEntry st.subscriptions fn with
  | none => rfl
  | some sub => by_cases he : sub.feed.enabled <;> simp [he]

/-- A key that `lookupEntry` finds is counted at least once. -/
theorem lookupEntry_some_countKeys {α : Type} (l : List (String × α))
    (k : String) (v : α) (h : lookupEntry l k = some v) :
    1 ≤ countKeys l k := by
  induction l with
  | nil => simp [lookupEntry] at h
  | cons p rest ih =>
    obtain ⟨k', v'⟩ := p
    by_cases hk : k' = k
    · simp [countKeys, hk]
    · simp only [lookupEntry, if_neg hk] at h
      simp only [countKeys, if_neg hk]
      exact le_trans (ih h) (Nat.le_add_left _ _)

/-- `checkForUpdates` only ever replaces an existing registry entry, so the
number of entries for the polled feed is unchanged. -/
theorem checkForUpdates_countKeys (st : ManagerState) (fn : String)
    (r : CallOutcome) (now : Int) :
    countKeys (checkForUpdates st fn r now).1.subscriptions fn
      = countKeys st.subscriptions fn := by
  unfold checkForUpdates
  cases hl : lookupEntry st.subscriptions fn with
  | none => rfl
  | some sub =>
    by_cases he : sub.feed.enabled
    · have hpos := lookupEntry_some_countKeys st.subscriptions fn sub hl
      simp [he, countKeys_setEntry_self]
      omega
    · simp [he]

/-- `subscribe` succeeds exactly when no configured MCP command fails to
connect. -/
theorem subscribe_ok_iff (st : ManagerState) (feed : ThreatFeed)
    (cb c : Bool) (r : CallOutcome) (now : Int) :
    (subscribe st feed cb c r now).1 = .ok ()
      ↔ (feed.mcp_server_command.isSome && !c) = false := by
  by_cases h : (feed.mcp_server_command.isSome && !c) = false
  · simp [subscribe, h]
  · simp only [Bool.not_eq_false] at h
    simp [subscribe, h]

/-- A successful `subscribe` appends exactly one recurring timer, using
the new feed's interval, and clears none. -/
theorem subscribe_timers (st : ManagerState) (feed : ThreatFeed)
    (cb c : Bool) (r : CallOutcome) (now : Int)
    (h : (feed.mcp_server_command.isSome && !c) = false) :
    (subscribe st feed cb c r now).2.timers
      = st.timers ++ [(feed.name, feed.update_interval_minutes * 60 * 1000)]
      := by
  simp only [subscribe, h, if_false, Bool.false_eq_true]
  unfold startPolling
  rw [lookupEntry_setEntry_self]
  simp [checkForUpdates_timers]

/-- A successful `subscribe` leaves exactly `max 1 (previous count)`
registry entries under the feed's name. -/
theorem subscribe_countKeys (st : ManagerState) (feed : ThreatFeed)
    (cb c : Bool) (r : CallOutcome) (now : Int)
    (h : (feed.mcp_server_command.isSome && !c) = false) :
    countKeys (subscribe st feed cb c r now).2.subscriptions feed.name
      = max 1 (countKeys st.subscriptions feed.name) := by
  simp only [subscribe, h, if_false, Bool.false_eq_true]
  unfold startPolling
  rw [lookupEntry_setEntry_self]
  have hsubs : ∀ (a : ManagerState × List ThreatFeedUpdate)
      (t : List (String × Nat)),
      ({ a.1 with timers := t } : ManagerState).subscriptions
        = a.1.subscriptions := fun a t => rfl
  rw [hsubs, checkForUpdates_countKeys, countKeys_setEntry_self]

/-- The registry entry a successful `subscribe` leaves under the feed's
name: the new configuration with `last_check` set to the subscribe time
(the immediate poll re-sets it to the same value, and additionally stamps
`feed.last_update` when the feed is enabled). -/
theorem subscribe_lookup (st : ManagerState) (feed : ThreatFeed)
    (cb c : Bool) (r : CallOutcome) (now : Int)
    (h : (feed.mcp_server_command.isSome && !c) = false) :
    lookupEntry (subscribe st feed cb c r now).2.subscriptions feed.name
      = some
        { feed :=
            { feed with
                last_update :=
                  if feed.enabled then some now else feed.last_update }
          hasClient := feed.mcp_server_command.isSome
          hasCallback := cb
          last_check := some now } := by
  obtain ⟨n, ty, url, cmd, args, en, lu, ui⟩ := feed
  have hc : (cmd.isSome && !c) = false := h
  simp only [subscribe, hc, if_false, Bool.false_eq_true]
  unfold startPolling
  rw [lookupEntry_setEntry_self]
  have hsubs : ∀ (a : ManagerState × List ThreatFeedUpdate)
      (t : List (String × Nat)),
      ({ a.1 with timers := t } : ManagerState).subscriptions
        = a.1.subscriptions := fun a t => rfl
  rw [hsubs]
  unfold checkForUpdates
  rw [lookupEntry_setEntry_self]
  cases en
  · simp [lookupEntry_setEntry_self]
  · simp [lookupEntry_setEntry_self]

end Ilminate

namespace Ilminate

/-! ## Claim theorems -/

/-- C7: `unsubscribe` is idempotent — for a feed name with no registry
entry it completes (it is a total function that throws nothing) and
leaves the subscription registry, hence every other subscription, and the
timers unchanged. -/
theorem unsubscribe_unknown_is_noop (st : ManagerState) (name : String)
    (h : lookupEntry st.subscriptions name = none) :
    (unsubscribe st name).subscriptions = st.subscriptions ∧
    (unsubscribe st name).timers = st.timers := by
  refine ⟨?_, rfl⟩
  simp only [unsubscribe]
  exact eraseEntry_of_lookup_none st.subscriptions name h

/-- Witness for C7 at a concrete state: the name `"ghost"` is not
subscribed in a one-feed registry, and unsubscribing it changes nothing. -/
theorem unsubscribe_unknown_is_noop_witness :
    (unsubscribe
        { subscriptions :=
            [("osint",
              { feed :=
                  { name := "osint", type := .ioc, mcp_server_url := none
                    mcp_server_command := none, mcp_server_args := none
                    enabled := true, last_update := none
                    update_interval_minutes := 60 }
                hasClient := false, hasCallback := false
                last_check := some 17 })]
          updateCallbacks := [], timers := [("osint", 3600000)] }
        "ghost").subscriptions =
      [("osint",
        { feed :=
            { name := "osint", type := .ioc, mcp_server_url := none
              mcp_server_command := none, mcp_server_args := none
              enabled := true, last_update := none
              update_interval_minutes := 60 }
          hasClient := false, hasCallback := false
          last_check := some 17 })] ∧
    (unsubscribe
        { subscriptions :=
            [("osint",
              { feed :=
                  { name := "osint", type := .ioc, mcp_server_url := none
                    mcp_server_command := none, mcp_server_args := none
                    enabled := true, last_update := none
                    update_interval_minutes := 60 }
                hasClient := false, hasCallback := false
                last_check := some 17 })]
          updateCallbacks := [], timers := [("osint", 3600000)] }
        "ghost").timers = [("osint", 3600000)] :=
  unsubscribe_unknown_is_noop _ "ghost" (by decide)

/-- C8: with the backend unreachable, `check_domain_reputation` on
`"bit.ly/x"` falls back to `performBasicDomainAnalysis`, whose
shortened-link regex fires: the result's `threat_types` contains the
`"suspicious_pattern"` entry that heuristic pushes, and the
`reputation_score` it sets is 0.3 < 0.5. -/
theorem checkDomainReputation_bitly_fallback :
    "suspicious_pattern" ∈
      (checkDomainReputation { domain := "bit.ly/x" } none).threat_types ∧
    (checkDomainReputation { domain := "bit.ly/x" } none).reputation_score
      < 0.5 := by
  have h1 : hasSuspiciousPattern (strLower "bit.ly/x") = true := by decide
  have h2 : hasSuspiciousTLD (strLower "bit.ly/x") = false := by decide
  constructor
  · simp [checkDomainReputation, performBasicDomainAnalysis, h1, h2]
  · simp only [checkDomainReputation, performBasicDomainAnalysis, h1, h2]
    norm_num

/-- C9: `getThreatFeedStatus` is a total function of the registry (every
registry state and filter yields this value — the handler's catch branch
is unreachable), and its output is internally consistent: `total_feeds`
is the length of `feeds`, `active_feeds` counts the listed feeds whose
`status` is `"active"`, and a listed feed's `status` is `"active"`
exactly when its `enabled` flag is true. -/
theorem getThreatFeedStatus_consistent (st : ManagerState)
    (filter : Option String) :
    (getThreatFeedStatus st filter).total_feeds
      = (getThreatFeedStatus st filter).feeds.length ∧
    (getThreatFeedStatus st filter).active_feeds
      = ((getThreatFeedStatus st filter).feeds.filter
          (fun f => f.status == "active")).length ∧
    ((getThreatFeedStatus st filter).feeds.all
      (fun f => (f.status == "active") == f.enabled)) = true := by
  refine ⟨rfl, rfl, ?_⟩
  rw [List.all_eq_true]
  intro f hf
  simp only [getThreatFeedStatus, List.mem_filterMap] at hf
  obtain ⟨sub, _, hsub⟩ := hf
  by_cases hk : keepsFeed filter sub.feed.name = true
  · rw [if_pos hk] at hsub
    cases hsub
    simp only [statusEntryOf]
    cases he : sub.feed.enabled <;> simp [he]
  · rw [if_neg hk] at hsub
    cases hsub

/-- C10: `subscribeToThreatFeed` always resolves to a structured output
(it is a total function; the `catch` turns the thrown error into a
result): `success` is true exactly when the underlying manager
`subscribe` returned ok, in which case `subscription_id` is the input
`feed_name`; on a thrown subscribe `subscription_id` is `""`. -/
theorem subscribeToThreatFeed_resolves (st : ManagerState)
    (input : SubscribeToThreatFeedInput) (connectOk : Bool)
    (respond : CallOutcome) (now : Int) :
    ((subscribeToThreatFeed st input connectOk respond now).1.success = true
      ↔ (subscribe st (feedOfInput input) true connectOk respond now).1
          = .ok ()) ∧
    (subscribeToThreatFeed st input connectOk respond now).1.subscription_id
      = (if (subscribeToThreatFeed st input connectOk respond now).1.success
          then input.feed_name else "") ∧
    (subscribeToThreatFeed st input connectOk respond now).1.feed_name
      = input.feed_name := by
  by_cases h :
      ((feedOfInput input).mcp_server_command.isSome && !connectOk) = false
  · have hok := (subscribe_ok_iff st (feedOfInput input) true connectOk
      respond now).mpr h
    rcases hs : subscribe st (feedOfInput input) true connectOk respond now
      with ⟨e, st'⟩
    rw [hs] at hok
    simp only at hok
    subst hok
    simp only [subscribeToThreatFeed, hs]
    simp [feedOfInput]
  · simp only [Bool.not_eq_false] at h
    have hs : subscribe st (feedOfInput input) true connectOk respond now
        = (.error .connectionError, st) := by
      simp [subscribe, h]
    simp only [subscribeToThreatFeed, hs]
    simp

/-- The fallback scorer's recommendation is always one of the three
actions. -/
theorem performBasic_recommendation_mem (input : AnalyzeEmailThreatInput) :
    (performBasicHeuristicAnalysis input).recommendation
      ∈ (["quarantine", "review", "allow"] : List String) := by
  simp only [performBasicHeuristicAnalysis]
  split_ifs <;> simp

/-- The fallback scorer's threat score is non-negative. -/
theorem performBasic_threat_score_nonneg (input : AnalyzeEmailThreatInput) :
    0 ≤ (performBasicHeuristicAnalysis input).threat_score := by
  simp only [performBasicHeuristicAnalysis]
  rw [le_min_iff]
  constructor
  · split_ifs <;> norm_num
  · norm_num

/-- C1 (amended): on any backend failure (transport error, `success`
false, or a missing verdict) `analyze_email_threat` resolves to the
fallback heuristic verdict — its `recommendation` is one of the three
actions and its `threat_score` is populated (non-negative) — with the
fixed fallback confidence 0.6. That confidence is strictly lower than a
successful primary-path result's confidence exactly when the backend
verdict's (defaulted) confidence exceeds 0.6; the claim's unconditional
comparison fails for low or absent backend confidences (see the
counterexample). -/
theorem analyzeEmailThreat_backend_failure_fallback
    (input : AnalyzeEmailThreatInput) (backend : Option ApexResult)
    (v : ApexVerdict)
    (hfail : backend = none
      ∨ ∃ r, backend = some r ∧ (r.success = false ∨ r.verdict = none))
    (hconf : (0.6 : ℚ) < jsOrQ v.confidence 0.5) :
    analyzeEmailThreat input backend = performBasicHeuristicAnalysis input ∧
    (analyzeEmailThreat input backend).recommendation
      ∈ (["quarantine", "review", "allow"] : List String) ∧
    0 ≤ (analyzeEmailThreat input backend).threat_score ∧
    (analyzeEmailThreat input backend).confidence = 0.6 ∧
    (analyzeEmailThreat input backend).confidence
      < (analyzeEmailThreat input
          (some { success := true, verdict := some v })).confidence := by
  have hfb : analyzeEmailThreat input backend
      = performBasicHeuristicAnalysis input := by
    rcases hfail with rfl | ⟨r, rfl, hr⟩
    · rfl
    · rcases hr with hsucc | hverd
      · simp [analyzeEmailThreat, hsucc]
      · cases hs : r.success <;> simp [analyzeEmailThreat, hs, hverd]
  refine ⟨hfb, ?_, ?_, ?_, ?_⟩
  · rw [hfb]; exact performBasic_recommendation_mem input
  · rw [hfb]; exact performBasic_threat_score_nonneg input
  · rw [hfb]; rfl
  · rw [hfb]
    have hp : (analyzeEmailThreat input
        (some { success := true, verdict := some v })).confidence
        = jsOrQ v.confidence 0.5 := by
      simp [analyzeEmailThreat, transformApexVerdict]
    rw [hp]
    exact hconf

/-- Witness for C1 (amended) at a backend transport failure and a
primary verdict of confidence 0.9. -/
theorem analyzeEmailThreat_backend_failure_fallback_witness :
    analyzeEmailThreat
        { subject := "", sender := "", body := "", attachments := none }
        none
      = performBasicHeuristicAnalysis
          { subject := "", sender := "", body := "", attachments := none } ∧
    (analyzeEmailThreat
        { subject := "", sender := "", body := "", attachments := none }
        none).recommendation
      ∈ (["quarantine", "review", "allow"] : List String) ∧
    0 ≤ (analyzeEmailThreat
        { subject := "", sender := "", body := "", attachments := none }
        none).threat_score ∧
    (analyzeEmailThreat
        { subject := "", sender := "", body := "", attachments := none }
        none).confidence = 0.6 ∧
    (analyzeEmailThreat
        { subject := "", sender := "", body := "", attachments := none }
        none).confidence
      < (analyzeEmailThreat
          { subject := "", sender := "", body := "", attachments := none }
          (some { success := true,
                  verdict := some
                    { risk_score := none, threat_categories := none
                      indicators := none, action := none
                      threat_level := none
                      confidence := some 0.9 } })).confidence :=
  analyzeEmailThreat_backend_failure_fallback _ _ _ (Or.inl rfl)
    (by norm_num [jsOrQ])

/-- C1 (counterexample): for a backend verdict without a confidence field
the primary-path confidence defaults to 0.5, so the fallback confidence
0.6 is NOT strictly lower than the successful primary-path confidence
for the same input. -/
theorem analyzeEmailThreat_confidence_not_lower_example :
    ¬ ((analyzeEmailThreat
          { subject := "Invoice", sender := "billing@acme.com",
            body := "Please see the attached file.", attachments := none }
          none).confidence <
        (analyzeEmailThreat
          { subject := "Invoice", sender := "billing@acme.com",
            body := "Please see the attached file.", attachments := none }
          (some { success := true,
                  verdict := some
                    { risk_score := some 20
                      threat_categories := some ["Phishing"]
                      indicators := some [], action := some "warn"
                      threat_level := some "LOW"
                      confidence := none } })).confidence) := by
  have h1 : (analyzeEmailThreat
      { subject := "Invoice", sender := "billing@acme.com",
        body := "Please see the attached file.", attachments := none }
      none).confidence = 0.6 := rfl
  have h2 : (analyzeEmailThreat
      { subject := "Invoice", sender := "billing@acme.com",
        body := "Please see the attached file.", attachments := none }
      (some { success := true,
              verdict := some
                { risk_score := some 20
                  threat_categories := some ["Phishing"]
                  indicators := some [], action := some "warn"
                  threat_level := some "LOW"
                  confidence := none } })).confidence = 0.5 := by
    simp [analyzeEmailThreat, transformApexVerdict, jsOrQ]
  rw [h1, h2]
  norm_num

/-- C4 (amended): whenever the backend response carries a verdict, the
handler's `confidence` and `threat_score` are populated from it with
defaults for missing fields: a missing `confidence` defaults to
mid-confidence 0.5, but a missing `risk_score` IS silently defaulted to
0 (`(verdict.risk_score || 0) / 100`), contrary to the claim's
"not defaulted to 0" conjunct. -/
theorem analyzeEmailThreat_verdict_defaults
    (input : AnalyzeEmailThreatInput) (r : ApexResult) (v : ApexVerdict)
    (hs : r.success = true) (hv : r.verdict = some v) :
    (analyzeEmailThreat input (some r)).confidence
      = jsOrQ v.confidence 0.5 ∧
    (analyzeEmailThreat input (some r)).threat_score
      = jsOrQ v.risk_score 0 / 100 ∧
    (v.confidence = none →
      (analyzeEmailThreat input (some r)).confidence = 0.5) ∧
    (v.risk_score = none →
      (analyzeEmailThreat input (some r)).threat_score = 0) := by
  have ht : analyzeEmailThreat input (some r) = transformApexVerdict v := by
    simp [analyzeEmailThreat, hs, hv]
  refine ⟨by rw [ht]; rfl, by rw [ht]; rfl, ?_, ?_⟩
  · intro hc
    rw [ht]
    simp [transformApexVerdict, hc, jsOrQ]
  · intro hrs
    rw [ht]
    simp [transformApexVerdict, hrs, jsOrQ]

/-- Witness for C4 (amended) at a backend verdict missing both
`risk_score` and `confidence`. -/
theorem analyzeEmailThreat_verdict_defaults_witness :
    (analyzeEmailThreat
        { subject := "Q", sender := "a@b.c", body := "hello",
          attachments := none }
        (some { success := true,
                verdict := some
                  { risk_score := none, threat_categories := none
                    indicators := none, action := none
                    threat_level := none, confidence := none } })).confidence
      = jsOrQ none 0.5 ∧
    (analyzeEmailThreat
        { subject := "Q", sender := "a@b.c", body := "hello",
          attachments := none }
        (some { success := true,
                verdict := some
                  { risk_score := none, threat_categories := none
                    indicators := none, action := none
                    threat_level := none, confidence := none } })).threat_score
      = jsOrQ none 0 / 100 ∧
    ((none : Option ℚ) = none →
      (analyzeEmailThreat
        { subject := "Q", sender := "a@b.c", body := "hello",
          attachments := none }
        (some { success := true,
                verdict := some
                  { risk_score := none, threat_categories := none
                    indicators := none, action := none
                    threat_level := none, confidence := none } })).confidence
        = 0.5) ∧
    ((none : Option ℚ) = none →
      (analyzeEmailThreat
        { subject := "Q", sender := "a@b.c", body := "hello",
          attachments := none }
        (some { success := true,
                verdict := some
                  { risk_score := none, threat_categories := none
                    indicators := none, action := none
                    threat_level := none, confidence := none } })).threat_score
        = 0) :=
  analyzeEmailThreat_verdict_defaults
    { subject := "Q", sender := "a@b.c", body := "hello",
      attachments := none }
    { success := true,
      verdict := some
        { risk_score := none, threat_categories := none
          indicators := none, action := none
          threat_level := none, confidence := none } }
    { risk_score := none, threat_categories := none
      indicators := none, action := none
      threat_level := none, confidence := none }
    rfl rfl

/-- C4 (counterexample): for a successful backend response whose verdict
has no `risk_score`, the handler's `threat_score` is silently 0 — the
claim's "a missing risk_score is not silently defaulted to 0" is false. -/
theorem analyzeEmailThreat_missing_risk_score_zero :
    (analyzeEmailThreat
        { subject := "Wire request", sender := "ceo@corp.example",
          body := "please handle", attachments := none }
        (some { success := true,
                verdict := some
                  { risk_score := none
                    threat_categories := some ["BEC"]
                    indicators := some ["lookalike_domain"]
                    action := some "warn", threat_level := some "HIGH"
                    confidence := some 0.9 } })).threat_score = 0 := by
  simp [analyzeEmailThreat, transformApexVerdict, jsOrQ]

/-- C2 (amended): when a sub-process source descriptor is configured and
constructing/connecting the MCP client fails, `subscribe` rethrows the
error to the caller BEFORE any registration step runs: the manager state
is completely unchanged, so a subsequent status query does NOT find the
feed (unless it was already there). -/
theorem subscribe_connect_failure_not_recorded
    (st : ManagerState) (feed : ThreatFeed) (cb : Bool) (r : CallOutcome)
    (now : Int) (cmd : String)
    (hc : feed.mcp_server_command = some cmd) :
    subscribe st feed cb false r now = (.error .connectionError, st) ∧
    getThreatFeedStatus (subscribe st feed cb false r now).2 (some feed.name)
      = getThreatFeedStatus st (some feed.name) := by
  have hmain : subscribe st feed cb false r now
      = (.error .connectionError, st) := by
    simp [subscribe, hc]
  exact ⟨hmain, by rw [hmain]⟩

/-- Witness for C2 (amended): a concrete sub-process feed whose connect
fails leaves the (empty) manager untouched. -/
theorem subscribe_connect_failure_not_recorded_witness :
    subscribe emptyManager
        { name := "intel", type := .yara, mcp_server_url := none
          mcp_server_command := some "npx", mcp_server_args := some ["feed"]
          enabled := true, last_update := none
          update_interval_minutes := 30 }
        true false (fun _ => none) 0
      = (.error .connectionError, emptyManager) ∧
    getThreatFeedStatus
        (subscribe emptyManager
          { name := "intel", type := .yara, mcp_server_url := none
            mcp_server_command := some "npx", mcp_server_args := some ["feed"]
            enabled := true, last_update := none
            update_interval_minutes := 30 }
          true false (fun _ => none) 0).2 (some "intel")
      = getThreatFeedStatus emptyManager (some "intel") :=
  subscribe_connect_failure_not_recorded emptyManager
    { name := "intel", type := .yara, mcp_server_url := none
      mcp_server_command := some "npx", mcp_server_args := some ["feed"]
      enabled := true, last_update := none, update_interval_minutes := 30 }
    true (fun _ => none) 0 "npx" rfl

/-- C2 (counterexample): after a failed subscribe of the sub-process feed
`"intel"` on an empty manager, the status query finds no feed at all and
the registry has no entry — refuting "the subscription is still recorded,
so a subsequent status query finds the feed". -/
theorem subscribe_connect_failure_example :
    (subscribe emptyManager
        { name := "intel", type := .yara, mcp_server_url := none
          mcp_server_command := some "npx", mcp_server_args := some ["feed"]
          enabled := true, last_update := none
          update_interval_minutes := 30 }
        true false (fun _ => none) 0).1 = .error .connectionError ∧
    lookupEntry
      (subscribe emptyManager
        { name := "intel", type := .yara, mcp_server_url := none
          mcp_server_command := some "npx", mcp_server_args := some ["feed"]
          enabled := true, last_update := none
          update_interval_minutes := 30 }
        true false (fun _ => none) 0).2.subscriptions "intel" = none ∧
    (getThreatFeedStatus
      (subscribe emptyManager
        { name := "intel", type := .yara, mcp_server_url := none
          mcp_server_command := some "npx", mcp_server_args := some ["feed"]
          enabled := true, last_update := none
          update_interval_minutes := 30 }
        true false (fun _ => none) 0).2 (some "intel")).total_feeds = 0 :=
  ⟨rfl, rfl, rfl⟩

/-- C3 (amended): a transport-level failure of the feed-source call is
caught INSIDE `queryMCPFeed`, which returns an empty batch; the poll
cycle then completes normally, dispatches nothing, and ADVANCES both
`last_check` and `feed.last_update` to the cycle time — so the next
interval queries from this cycle's time, not the same window again. -/
theorem checkForUpdates_transport_failure_advances
    (st : ManagerState) (fn : String) (respond : CallOutcome) (now : Int)
    (sub : Subscription)
    (hl : lookupEntry st.subscriptions fn = some sub)
    (he : sub.feed.enabled = true)
    (hr : ∀ q, respond q = none) :
    ((lookupEntry (checkForUpdates st fn respond now).1.subscriptions fn).map
        (fun s => (s.last_check, s.feed.last_update)))
      = some (some now, some now) ∧
    (checkForUpdates st fn respond now).2 = [] := by
  have hq : (if sub.hasClient then queryMCPFeed sub respond now else [])
      = [] := by
    cases hcl : sub.hasClient
    · simp
    · simp [queryMCPFeed, hcl, hr]
  unfold checkForUpdates
  rw [hl]
  simp [he, hq, lookupEntry_setEntry_self]

/-- Witness for C3 (amended) at a concrete one-feed registry whose poll
hits a transport error at time 100. -/
theorem checkForUpdates_transport_failure_advances_witness :
    ((lookupEntry (checkForUpdates
        { subscriptions :=
            [("feedx",
              { feed :=
                  { name := "feedx", type := .ioc, mcp_server_url := none
                    mcp_server_command := some "npx"
                    mcp_server_args := none, enabled := true
                    last_update := none, update_interval_minutes := 60 }
                hasClient := true, hasCallback := false
                last_check := some 5 })]
          updateCallbacks := [], timers := [("feedx", 3600000)] }
        "feedx" (fun _ => none) 100).1.subscriptions "feedx").map
        (fun s => (s.last_check, s.feed.last_update)))
      = some (some 100, some 100) ∧
    (checkForUpdates
        { subscriptions :=
            [("feedx",
              { feed :=
                  { name := "feedx", type := .ioc, mcp_server_url := none
                    mcp_server_command := some "npx"
                    mcp_server_args := none, enabled := true
                    last_update := none, update_interval_minutes := 60 }
                hasClient := true, hasCallback := false
                last_check := some 5 })]
          updateCallbacks := [], timers := [("feedx", 3600000)] }
        "feedx" (fun _ => none) 100).2 = [] :=
  checkForUpdates_transport_failure_advances _ "feedx" _ 100 _ rfl rfl
    (fun _ => rfl)

/-- C3 (counterexample): with `last_check = 5` before the cycle and a
transport error during it, the cycle run at time 100 changes
`last_check` to 100 and `feed.last_update` to 100 — refuting "left
unchanged by that cycle". -/
theorem checkForUpdates_transport_failure_example :
    ((lookupEntry (checkForUpdates
        { subscriptions :=
            [("feedy",
              { feed :=
                  { name := "feedy", type := .domain, mcp_server_url := none
                    mcp_server_command := some "npx"
                    mcp_server_args := none, enabled := true
                    last_update := some 2, update_interval_minutes := 15 }
                hasClient := true, hasCallback := true
                last_check := some 5 })]
          updateCallbacks := ["feedy"], timers := [("feedy", 900000)] }
        "feedy" (fun _ => none) 100).1.subscriptions "feedy").map
        (fun s => (s.last_check, s.feed.last_update)))
      = some (some 100, some 100) ∧
    some ((some 100 : Option Int), (some 100 : Option Int))
      ≠ some ((some 5 : Option Int), (some 2 : Option Int)) :=
  ⟨rfl, by decide⟩

/-- C5 (amended): `subscribe` initializes `last_check` to the subscribe
time, so the subscription it records yields `since = subscribe time` for
any poll (in particular for the immediate first poll, which runs at that
very time) — the 24-hours-ago fallback applies only to a subscription
whose `last_check` is unset, a state `subscribe` never produces. Every
poll of a subscription with `last_check = t` passes `since = t`. -/
theorem subscribe_first_poll_since
    (st : ManagerState) (feed : ThreatFeed) (cb c : Bool) (r : CallOutcome)
    (now pollNow : Int) (sub2 : Subscription) (t2 : Int)
    (hok : (subscribe st feed cb c r now).1 = .ok ())
    (h2 : sub2.last_check = some t2) :
    ((lookupEntry (subscribe st feed cb c r now).2.subscriptions
        feed.name).map (fun sub => (sub.last_check, sinceParam sub pollNow)))
      = some (some now, now) ∧
    sinceParam sub2 pollNow = t2 := by
  have hcond := (subscribe_ok_iff st feed cb c r now).mp hok
  rw [subscribe_lookup st feed cb c r now hcond]
  exact ⟨rfl, by simp [sinceParam, h2]⟩

/-- Witness for C5 (amended): a concrete sub-process feed subscribed at
time 1000, and a subscription whose `last_check` is 42. -/
theorem subscribe_first_poll_since_witness :
    ((lookupEntry (subscribe emptyManager
        { name := "osintfeed", type := .yara, mcp_server_url := none
          mcp_server_command := some "npx", mcp_server_args := none
          enabled := true, last_update := none
          update_interval_minutes := 60 }
        true true (fun _ => none) 1000).2.subscriptions "osintfeed").map
      (fun sub => (sub.last_check, sinceParam sub 1000)))
      = some (some 1000, 1000) ∧
    sinceParam
        { feed :=
            { name := "osintfeed", type := .yara, mcp_server_url := none
              mcp_server_command := some "npx", mcp_server_args := none
              enabled := true, last_update := none
              update_interval_minutes := 60 }
          hasClient := true, hasCallback := true, last_check := some 42 }
        1000 = 42 :=
  subscribe_first_poll_since emptyManager
    { name := "osintfeed", type := .yara, mcp_server_url := none
      mcp_server_command := some "npx", mcp_server_args := none
      enabled := true, last_update := none, update_interval_minutes := 60 }
    true true (fun _ => none) 1000 1000
    { feed :=
        { name := "osintfeed", type := .yara, mcp_server_url := none
          mcp_server_command := some "npx", mcp_server_args := none
          enabled := true, last_update := none
          update_interval_minutes := 60 }
      hasClient := true, hasCallback := true, last_check := some 42 }
    42 rfl rfl

/-- C5 (counterexample): the subscription recorded by a subscribe at time
1000 queries with `since = 1000` at its first (immediate) poll — its
`last_check` equals the subscribe time, and 1000 is not 24 hours before
the poll time 1000. -/
theorem subscribe_first_poll_since_example :
    ((lookupEntry (subscribe emptyManager
        { name := "osintfeed", type := .yara, mcp_server_url := none
          mcp_server_command := some "npx", mcp_server_args := none
          enabled := true, last_update := none
          update_interval_minutes := 60 }
        true true (fun _ => none) 1000).2.subscriptions "osintfeed").map
      (fun sub => (feedQueryOf sub 1000).since)) = some 1000 ∧
    (1000 : Int) ≠ 1000 - 24 * 60 * 60 * 1000 :=
  ⟨rfl, by decide⟩

/-- C6 (amended): re-subscribing the same feed name keeps the registry
unique — exactly one entry, holding the second configuration — but the
first call's interval timer is never cleared: after the second call the
feed's effective recurring schedule contains BOTH the old and the new
interval, not just the new one. -/
theorem resubscribe_unique_entry_both_timers
    (st : ManagerState) (f1 f2 : ThreatFeed) (cb1 cb2 c1 c2 : Bool)
    (r1 r2 : CallOutcome) (now1 now2 : Int)
    (hname : f2.name = f1.name)
    (hcount : countKeys st.subscriptions f1.name ≤ 1)
    (h1 : (subscribe st f1 cb1 c1 r1 now1).1 = .ok ())
    (h2 : (subscribe (subscribe st f1 cb1 c1 r1 now1).2
            f2 cb2 c2 r2 now2).1 = .ok ()) :
    countKeys (subscribe (subscribe st f1 cb1 c1 r1 now1).2
        f2 cb2 c2 r2 now2).2.subscriptions f1.name = 1 ∧
    (lookupEntry (subscribe (subscribe st f1 cb1 c1 r1 now1).2
        f2 cb2 c2 r2 now2).2.subscriptions f1.name).map
      (fun s => s.feed.update_interval_minutes)
      = some f2.update_interval_minutes ∧
    timersFor (subscribe (subscribe st f1 cb1 c1 r1 now1).2
        f2 cb2 c2 r2 now2).2 f1.name
      = timersFor st f1.name
        ++ [f1.update_interval_minutes * 60 * 1000,
            f2.update_interval_minutes * 60 * 1000] := by
  have hc1 := (subscribe_ok_iff st f1 cb1 c1 r1 now1).mp h1
  have hc2 := (subscribe_ok_iff (subscribe st f1 cb1 c1 r1 now1).2
    f2 cb2 c2 r2 now2).mp h2
  refine ⟨?_, ?_, ?_⟩
  · have e2 := subscribe_countKeys (subscribe st f1 cb1 c1 r1 now1).2
      f2 cb2 c2 r2 now2 hc2
    have e1 := subscribe_countKeys st f1 cb1 c1 r1 now1 hc1
    rw [hname] at e2
    rw [e2, e1]
    omega
  · have e2 := subscribe_lookup (subscribe st f1 cb1 c1 r1 now1).2
      f2 cb2 c2 r2 now2 hc2
    rw [hname] at e2
    rw [e2]
    rfl
  · have t2 := subscribe_timers (subscribe st f1 cb1 c1 r1 now1).2
      f2 cb2 c2 r2 now2 hc2
    have t1 := subscribe_timers st f1 cb1 c1 r1 now1 hc1
    simp only [timersFor, t2, t1, hname]
    simp [List.filter_append]

/-- Witness for C6 (amended): the feed `"dup"` subscribed with interval 5
then re-subscribed with interval 7 from an empty manager. -/
theorem resubscribe_unique_entry_both_timers_witness :
    countKeys (subscribe (subscribe emptyManager
        { name := "dup", type := .ioc, mcp_server_url := none
          mcp_server_command := none, mcp_server_args := none
          enabled := true, last_update := none
          update_interval_minutes := 5 }
        true true (fun _ => none) 0).2
        { name := "dup", type := .ioc, mcp_server_url := none
          mcp_server_command := none, mcp_server_args := none
          enabled := true, last_update := none
          update_interval_minutes := 7 }
        true true (fun _ => none) 60).2.subscriptions "dup" = 1 ∧
    (lookupEntry (subscribe (subscribe emptyManager
        { name := "dup", type := .ioc, mcp_server_url := none
          mcp_server_command := none, mcp_server_args := none
          enabled := true, last_update := none
          update_interval_minutes := 5 }
        true true (fun _ => none) 0).2
        { name := "dup", type := .ioc, mcp_server_url := none
          mcp_server_command := none, mcp_server_args := none
          enabled := true, last_update := none
          update_interval_minutes := 7 }
        true true (fun _ => none) 60).2.subscriptions "dup").map
      (fun s => s.feed.update_interval_minutes) = some 7 ∧
    timersFor (subscribe (subscribe emptyManager
        { name := "dup", type := .ioc, mcp_server_url := none
          mcp_server_command := none, mcp_server_args := none
          enabled := true, last_update := none
          update_interval_minutes := 5 }
        true true (fun _ => none) 0).2
        { name := "dup", type := .ioc, mcp_server_url := none
          mcp_server_command := none, mcp_server_args := none
          enabled := true, last_update := none
          update_interval_minutes := 7 }
        true true (fun _ => none) 60).2 "dup"
      = timersFor emptyManager "dup" ++ [5 * 60 * 1000, 7 * 60 * 1000] :=
  resubscribe_unique_entry_both_timers emptyManager
    { name := "dup", type := .ioc, mcp_server_url := none
      mcp_server_command := none, mcp_server_args := none
      enabled := true, last_update := none, update_interval_minutes := 5 }
    { name := "dup", type := .ioc, mcp_server_url := none
      mcp_server_command := none, mcp_server_args := none
      enabled := true, last_update := none, update_interval_minutes := 7 }
    true true true true (fun _ => none) (fun _ => none) 0 60
    rfl (by decide) rfl rfl

/-- C6 (counterexample): after re-subscribing `"dup"` with interval 7,
the registry has one entry but the recurring schedule is
`[300000 ms, 420000 ms]` — both the old and the new interval — not the
new interval alone. -/
theorem resubscribe_schedule_example :
    timersFor (subscribe (subscribe emptyManager
        { name := "dup", type := .ioc, mcp_server_url := none
          mcp_server_command := none, mcp_server_args := none
          enabled := true, last_update := none
          update_interval_minutes := 5 }
        true true (fun _ => none) 0).2
        { name := "dup", type := .ioc, mcp_server_url := none
          mcp_server_command := none, mcp_server_args := none
          enabled := true, last_update := none
          update_interval_minutes := 7 }
        true true (fun _ => none) 60).2 "dup" = [300000, 420000] ∧
    ([300000, 420000] : List Nat) ≠ [420000] :=
  ⟨rfl, by decide⟩

end Ilminate

